import Mathlib

/-!
Verification of `meta-pet-mobile/assets/convert-svg.py`.

The script is a sequential batch: ensure an `icons` output directory exists,
check the two SVG inputs exist, then run four SVG-to-PNG conversions in a
fixed order, printing progress lines and a final summary, returning exit
status 0; a missing input terminates the run early with status 1, and any
error raised by rasterization or the file write propagates uncaught.

We embed the script shallowly over an explicit file-system state `FS`
(an association list of files plus a list of directories).  The external
rasterization capability (`cairosvg.svg2png`) is a parameter
`raster : String → Nat → Nat → Option PngData`; `none` models a raised
exception.  A run result either `exited` with an exit code or `raised`
an uncaught exception; both carry the file-system state at that point and
the lines printed so far.
-/

namespace ConvertSvg

/-- A file-system path, as a list of components (`Path` in `pathlib`). -/
abbrev Path := List String

/-- Raster bytes produced by the rasterization capability: we record the
source content they were rendered from and their pixel dimensions. -/
structure PngData where
  source : String
  width : Nat
  height : Nat
deriving DecidableEq, Repr

/-- Contents of a file on disk: either SVG text or PNG raster data. -/
inductive FileData where
  | svgFile (content : String)
  | pngFile (data : PngData)
deriving DecidableEq, Repr

/-- The file-system state: regular files with their contents, and the
set of existing directories. -/
structure FS where
  files : List (Path × FileData)
  dirs : List Path
deriving DecidableEq, Repr

/-- Look a path up in the file association list. -/
def lookupFile : List (Path × FileData) → Path → Option FileData
  | [], _ => none
  | (q, d) :: rest, p => if q = p then some d else lookupFile rest p

/-- Remove all entries for a path from the file association list. -/
def removeFile : List (Path × FileData) → Path → List (Path × FileData)
  | [], _ => []
  | (q, d) :: rest, p => if q = p then removeFile rest p else (q, d) :: removeFile rest p

/-- Directory membership. -/
def memPath : List Path → Path → Bool
  | [], _ => false
  | q :: rest, p => if q = p then true else memPath rest p

/-- The content of a regular file, if one exists at `p`. -/
def FS.readFile (fs : FS) (p : Path) : Option FileData :=
  lookupFile fs.files p

/-- Whether `p` is an existing directory. -/
def FS.isDir (fs : FS) (p : Path) : Bool :=
  memPath fs.dirs p

/-- Python `Path.exists()`: true for an existing regular file or directory. -/
def FS.pathExists (fs : FS) (p : Path) : Bool :=
  (fs.readFile p).isSome || fs.isDir p

/-- Whether the parent directory of `p` exists (a single-component path
lives in the current directory, which always exists). -/
def parentOk (fs : FS) (p : Path) : Bool :=
  p.dropLast.isEmpty || fs.isDir p.dropLast

/-- Python binary-write open followed by a write: fails (raises) if `p` is a
directory or its parent directory is missing; otherwise creates or
truncates the file at `p`, replacing any previous content. -/
def FS.writeFile (fs : FS) (p : Path) (d : FileData) : Option FS :=
  if fs.isDir p || !parentOk fs p then none
  else some ⟨(p, d) :: removeFile fs.files p, fs.dirs⟩

/-- Python `pathlib.Path.mkdir(exist_ok=...)` with the default `parents=False`:
an existing directory is an error unless `exist_ok` holds; a regular file
at `p` is always an error; a missing parent directory is an error (no
parents are created); otherwise the directory is created. -/
def FS.mkdir (fs : FS) (p : Path) (exist_ok : Bool) : Option FS :=
  if fs.isDir p then
    if exist_ok then some fs else none
  else if (lookupFile fs.files p).isSome then none
  else if !parentOk fs p then none
  else some ⟨fs.files, p :: fs.dirs⟩

/-- Render a path the way Python `str(Path(...))` does. -/
def pathStr (p : Path) : String :=
  String.intercalate "/" p

/-- Python `Path.name`: the final path component. -/
def pathName (p : Path) : String :=
  p.getLastD ""

/-- The progress line printed before a conversion
(`convert-svg.py`, line 23). -/
def convLine (svg_path png_path : Path) (width height : Nat) : String :=
  "Converting " ++ pathStr svg_path ++ " to " ++ pathStr png_path ++
    " (" ++ toString width ++ "x" ++ toString height ++ ")..."

/-- The confirmation line printed after a conversion
(`convert-svg.py`, line 36). -/
def createdLine (png_path : Path) : String :=
  "✓ " ++ pathName png_path ++ " created"

/-- The type of the external rasterization capability
(`cairosvg.svg2png` with `url`, `output_width`, `output_height`):
given the SVG content found at the url and the output dimensions it
returns raster bytes, or `none` when it raises. -/
abbrev Raster := String → Nat → Nat → Option PngData

/-- The rasterization capability honours the requested output dimensions
(the black-box assumption on `cairosvg.svg2png`). -/
def RasterHonest (raster : Raster) : Prop :=
  ∀ c w h d, raster c w h = some d → d.width = w ∧ d.height = h

/-- Outcome of one conversion: the new state and printed lines, or a
raised exception together with the state and lines at that point. -/
inductive ConvResult where
  | ok (fs : FS) (out : List String)
  | raised (fs : FS) (out : List String)
deriving DecidableEq, Repr

/-- The file-system state a conversion result carries. -/
def ConvResult.state : ConvResult → FS
  | ConvResult.ok fs _ => fs
  | ConvResult.raised fs _ => fs

/-- The function `convert_svg_to_png(svg_path, png_path, width, height)`
(`convert-svg.py`, lines 21-36): print the progress line, rasterize the
SVG at the requested dimensions (reading the file at `svg_path`; a
missing or non-SVG file, like a rasterization error, raises), write the
raster bytes to `png_path`, and print the confirmation line. -/
def convert_svg_to_png (raster : Raster) (fs : FS) (svg_path png_path : Path)
    (width height : Nat) : ConvResult :=
  match fs.readFile svg_path with
  | some (FileData.svgFile content) =>
    match raster content width height with
    | some png_data =>
      match fs.writeFile png_path (FileData.pngFile png_data) with
      | some fs1 =>
        ConvResult.ok fs1 [convLine svg_path png_path width height, createdLine png_path]
      | none => ConvResult.raised fs [convLine svg_path png_path width height]
    | none => ConvResult.raised fs [convLine svg_path png_path width height]
  | _ => ConvResult.raised fs [convLine svg_path png_path width height]

/-- One entry of the conversion batch: source, destination, dimensions. -/
structure ConvSpec where
  src : Path
  dst : Path
  width : Nat
  height : Nat
deriving DecidableEq, Repr

/-- Run a batch of conversions in order, stopping at the first raised
exception (`convert-svg.py`, lines 58-68 run the four calls in sequence
with no exception handling). -/
def runBatch (raster : Raster) (fs : FS) : List ConvSpec → ConvResult
  | [] => ConvResult.ok fs []
  | s :: rest =>
    match convert_svg_to_png raster fs s.src s.dst s.width s.height with
    | ConvResult.ok fs1 out1 =>
      match runBatch raster fs1 rest with
      | ConvResult.ok fs2 out2 => ConvResult.ok fs2 (out1 ++ out2)
      | ConvResult.raised fs2 out2 => ConvResult.raised fs2 (out1 ++ out2)
    | ConvResult.raised fs1 out1 => ConvResult.raised fs1 out1

/-- The icon source `PLACEHOLDER_ICON.svg` (`convert-svg.py`, line 47). -/
def icon_svg (assets_dir : Path) : Path := assets_dir ++ ["PLACEHOLDER_ICON.svg"]

/-- The splash source `PLACEHOLDER_SPLASH.svg` (line 48). -/
def splash_svg (assets_dir : Path) : Path := assets_dir ++ ["PLACEHOLDER_SPLASH.svg"]

/-- The `icons` output directory (line 41). -/
def icons_dir (assets_dir : Path) : Path := assets_dir ++ ["icons"]

/-- Output path `icons/icon.png`. -/
def icon_png (assets_dir : Path) : Path := assets_dir ++ ["icons", "icon.png"]

/-- Output path `icons/adaptive-icon.png`. -/
def adaptive_png (assets_dir : Path) : Path := assets_dir ++ ["icons", "adaptive-icon.png"]

/-- Output path `icons/favicon.png`. -/
def favicon_png (assets_dir : Path) : Path := assets_dir ++ ["icons", "favicon.png"]

/-- Output path `splash.png`. -/
def splash_png (assets_dir : Path) : Path := assets_dir ++ ["splash.png"]

/-- The four conversions of `main`, in source order
(`convert-svg.py`, lines 58-68). -/
def theSpecs (assets_dir : Path) : List ConvSpec :=
  [ ⟨icon_svg assets_dir, icon_png assets_dir, 1024, 1024⟩,
    ⟨icon_svg assets_dir, adaptive_png assets_dir, 1024, 1024⟩,
    ⟨icon_svg assets_dir, favicon_png assets_dir, 48, 48⟩,
    ⟨splash_svg assets_dir, splash_png assets_dir, 1284, 2778⟩ ]

/-- The summary printed after all four conversions succeed
(`convert-svg.py`, lines 70-75), one entry per `print` call. -/
def summaryLines : List String :=
  [ "\n✅ All assets converted successfully!",
    "\nGenerated files:",
    "  - assets/icons/icon.png (1024x1024)",
    "  - assets/icons/adaptive-icon.png (1024x1024)",
    "  - assets/icons/favicon.png (48x48)",
    "  - assets/splash.png (1284x2778)" ]

/-- The eight progress lines printed during the four conversions of a
fully successful run, in source order. -/
def progressLines (assets_dir : Path) : List String :=
  [ convLine (icon_svg assets_dir) (icon_png assets_dir) 1024 1024,
    createdLine (icon_png assets_dir),
    convLine (icon_svg assets_dir) (adaptive_png assets_dir) 1024 1024,
    createdLine (adaptive_png assets_dir),
    convLine (icon_svg assets_dir) (favicon_png assets_dir) 48 48,
    createdLine (favicon_png assets_dir),
    convLine (splash_svg assets_dir) (splash_png assets_dir) 1284 2778,
    createdLine (splash_png assets_dir) ]

/-- Everything a fully successful run prints: the eight progress lines of
the four conversions followed by the summary. -/
def successOut (assets_dir : Path) : List String :=
  progressLines assets_dir ++ summaryLines

/-- Outcome of a whole run: a normal exit with a status code, or an
uncaught exception; both carry the final file-system state and the lines
printed during the run. -/
inductive RunResult where
  | exited (fs : FS) (out : List String) (code : Nat)
  | raised (fs : FS) (out : List String)
deriving DecidableEq, Repr

/-- The final file-system state of a run result. -/
def RunResult.state : RunResult → FS
  | RunResult.exited fs _ _ => fs
  | RunResult.raised fs _ => fs

/-- A rasterizer for concrete runs: always succeeds, returning raster data
of exactly the requested dimensions. -/
def wRaster : Raster := fun c w h => some ⟨c, w, h⟩

/-- A rasterizer for concrete runs that raises on any 48-pixel-wide
request (so the third conversion of the batch, `favicon.png`, fails). -/
def wRasterFail : Raster := fun c w h => if w = 48 then none else some ⟨c, w, h⟩

/-- Concrete assets directory with both input SVGs present. -/
def wFS : FS :=
  ⟨[(["assets", "PLACEHOLDER_ICON.svg"], FileData.svgFile "icon"),
    (["assets", "PLACEHOLDER_SPLASH.svg"], FileData.svgFile "splash")],
   [["assets"]]⟩

/-- Concrete assets directory with `PLACEHOLDER_ICON.svg` missing. -/
def wFSnoIcon : FS :=
  ⟨[(["assets", "PLACEHOLDER_SPLASH.svg"], FileData.svgFile "splash")], [["assets"]]⟩

/-- Concrete assets directory with `PLACEHOLDER_SPLASH.svg` missing. -/
def wFSnoSplash : FS :=
  ⟨[(["assets", "PLACEHOLDER_ICON.svg"], FileData.svgFile "icon")], [["assets"]]⟩

/-- Concrete assets directory with a pre-existing `icons` directory holding
an unrelated file. -/
def wFSkeep : FS :=
  ⟨[(["assets", "PLACEHOLDER_ICON.svg"], FileData.svgFile "icon"),
    (["assets", "PLACEHOLDER_SPLASH.svg"], FileData.svgFile "splash"),
    (["assets", "icons", "notes.txt"], FileData.svgFile "keep")],
   [["assets", "icons"], ["assets"]]⟩

/-- The file-system state reached when, starting from `wFS`, the first two
conversions succeed and the third (`favicon.png`, the 48-pixel request)
raises: the first two outputs are on disk, nothing else changed. -/
def wFailState : FS :=
  ⟨[(adaptive_png ["assets"], FileData.pngFile ⟨"icon", 1024, 1024⟩),
    (icon_png ["assets"], FileData.pngFile ⟨"icon", 1024, 1024⟩),
    (["assets", "PLACEHOLDER_ICON.svg"], FileData.svgFile "icon"),
    (["assets", "PLACEHOLDER_SPLASH.svg"], FileData.svgFile "splash")],
   [["assets", "icons"], ["assets"]]⟩

/-- The lines printed up to and including the failing third conversion
progress line in that run. -/
def wFailOut : List String :=
  [convLine (icon_svg ["assets"]) (icon_png ["assets"]) 1024 1024,
   createdLine (icon_png ["assets"]),
   convLine (icon_svg ["assets"]) (adaptive_png ["assets"]) 1024 1024,
   createdLine (adaptive_png ["assets"]),
   convLine (icon_svg ["assets"]) (favicon_png ["assets"]) 48 48]

/-- The function `main()` (`convert-svg.py`, lines 38-77): create the `icons` directory
with `exist_ok=True`, return 1 if either SVG input is missing (printing
which), otherwise run the four conversions in order, print the summary and
return 0.  `assets_dir` is the directory containing the script
(`Path(__file__).parent`). -/
def main (raster : Raster) (assets_dir : Path) (fs : FS) : RunResult :=
  match fs.mkdir (icons_dir assets_dir) true with
  | none => RunResult.raised fs []
  | some fs1 =>
    if !fs1.pathExists (icon_svg assets_dir) then
      RunResult.exited fs1 ["Error: " ++ pathStr (icon_svg assets_dir) ++ " not found!"] 1
    else if !fs1.pathExists (splash_svg assets_dir) then
      RunResult.exited fs1 ["Error: " ++ pathStr (splash_svg assets_dir) ++ " not found!"] 1
    else
      match runBatch raster fs1 (theSpecs assets_dir) with
      | ConvResult.ok fs2 out => RunResult.exited fs2 (out ++ summaryLines) 0
      | ConvResult.raised fs2 out => RunResult.raised fs2 out

/-! ### Basic lemmas about the file-system model -/

theorem lookupFile_removeFile {l : List (Path × FileData)} {p q : Path} (h : q ≠ p) :
    lookupFile (removeFile l p) q = lookupFile l q := by
  induction l with
  | nil => rfl
  | cons e rest ih =>
    obtain ⟨r, d⟩ := e
    by_cases hr : r = p
    · simp only [removeFile, lookupFile, if_pos hr, ih]
      rw [if_neg]
      exact fun hqr => h (hqr ▸ hr)
    · simp only [removeFile, lookupFile, if_neg hr]
      by_cases hrq : r = q
      · simp [lookupFile, if_pos hrq]
      · simp only [lookupFile, if_neg hrq, ih]

theorem dropLast_append_single {α : Type} (l : List α) (a : α) :
    (l ++ [a]).dropLast = l := by
  induction l with
  | nil => rfl
  | cons x xs ih => simp [List.dropLast_cons_of_ne_nil, ih]

theorem dropLast_append_pair {α : Type} (l : List α) (a b : α) :
    (l ++ [a, b]).dropLast = l ++ [a] := by
  have : l ++ [a, b] = (l ++ [a]) ++ [b] := by simp
  rw [this, dropLast_append_single]

theorem append_ne_append {α : Type} {l s t : List α} (h : s ≠ t) : l ++ s ≠ l ++ t :=
  fun he => h (List.append_cancel_left he)

/-! ### `writeFile` lemmas -/

theorem writeFile_some {fs : FS} {p : Path} (d : FileData)
    (hnd : fs.isDir p = false) (hpar : parentOk fs p = true) :
    fs.writeFile p d = some ⟨(p, d) :: removeFile fs.files p, fs.dirs⟩ := by
  simp [FS.writeFile, hnd, hpar]

theorem writeFile_read_self {fs fs' : FS} {p : Path} {d : FileData}
    (h : fs.writeFile p d = some fs') : fs'.readFile p = some d := by
  simp only [FS.writeFile] at h
  split at h
  · exact absurd h (by simp)
  · injection h with h
    subst h
    simp [FS.readFile, lookupFile]

theorem writeFile_read_ne {fs fs' : FS} {p q : Path} {d : FileData}
    (h : fs.writeFile p d = some fs') (hq : q ≠ p) : fs'.readFile q = fs.readFile q := by
  simp only [FS.writeFile] at h
  split at h
  · exact absurd h (by simp)
  · injection h with h
    subst h
    simp [FS.readFile, lookupFile, if_neg (Ne.symm hq), lookupFile_removeFile hq]

theorem writeFile_dirs {fs fs' : FS} {p : Path} {d : FileData}
    (h : fs.writeFile p d = some fs') : fs'.dirs = fs.dirs := by
  simp only [FS.writeFile] at h
  split at h
  · exact absurd h (by simp)
  · injection h with h
    subst h
    rfl

/-! ### `mkdir` lemmas -/

theorem mkdir_of_isDir {fs : FS} {p : Path} (h : fs.isDir p = true) :
    fs.mkdir p true = some fs := by
  simp [FS.mkdir, h]

theorem mkdir_create {fs : FS} {p : Path} (hnd : fs.isDir p = false)
    (hnf : fs.readFile p = none) (hpar : parentOk fs p = true) :
    fs.mkdir p true = some ⟨fs.files, p :: fs.dirs⟩ := by
  simp only [FS.readFile] at hnf
  simp [FS.mkdir, hnd, hnf, hpar]

theorem mkdir_some_files {fs fs' : FS} {p : Path}
    (h : fs.mkdir p true = some fs') : fs'.files = fs.files := by
  simp only [FS.mkdir] at h
  split at h
  · injection h with h; subst h; rfl
  · split at h
    · exact absurd h (by simp)
    · split at h
      · exact absurd h (by simp)
      · injection h with h; subst h; rfl

theorem mkdir_some_isDir_self {fs fs' : FS} {p : Path}
    (h : fs.mkdir p true = some fs') : fs'.isDir p = true := by
  simp only [FS.mkdir] at h
  split at h
  next hd =>
    injection h with h; subst h; exact hd
  · split at h
    · exact absurd h (by simp)
    · split at h
      · exact absurd h (by simp)
      · injection h with h; subst h
        simp [FS.isDir, memPath]

theorem mkdir_some_isDir_ne {fs fs' : FS} {p q : Path}
    (h : fs.mkdir p true = some fs') (hq : q ≠ p) : fs'.isDir q = fs.isDir q := by
  simp only [FS.mkdir] at h
  split at h
  · injection h with h; subst h; rfl
  · split at h
    · exact absurd h (by simp)
    · split at h
      · exact absurd h (by simp)
      · injection h with h; subst h
        simp [FS.isDir, memPath, if_neg (Ne.symm hq)]

theorem mkdir_some_readFile {fs fs' : FS} {p q : Path}
    (h : fs.mkdir p true = some fs') : fs'.readFile q = fs.readFile q := by
  simp only [FS.readFile, mkdir_some_files h]

/-! ### `convert_svg_to_png` lemmas -/

theorem convert_ok_eq {raster : Raster} {fs fs' : FS} {src dst : Path} {c : String}
    {d : PngData} {w h : Nat}
    (hread : fs.readFile src = some (FileData.svgFile c))
    (hr : raster c w h = some d)
    (hw : fs.writeFile dst (FileData.pngFile d) = some fs') :
    convert_svg_to_png raster fs src dst w h =
      ConvResult.ok fs' [convLine src dst w h, createdLine dst] := by
  simp only [convert_svg_to_png, hread, hr, hw]

theorem convert_ok_inv {raster : Raster} {fs fs' : FS} {src dst : Path}
    {w h : Nat} {out : List String}
    (hc : convert_svg_to_png raster fs src dst w h = ConvResult.ok fs' out) :
    ∃ c d, fs.readFile src = some (FileData.svgFile c) ∧ raster c w h = some d ∧
      fs.writeFile dst (FileData.pngFile d) = some fs' ∧
      out = [convLine src dst w h, createdLine dst] := by
  unfold convert_svg_to_png at hc
  split at hc
  next c hread =>
    split at hc
    next d hr =>
      split at hc
      next fs1 hw =>
        injection hc with h1 h2
        subst h1
        subst h2
        exact ⟨c, d, hread, hr, hw, rfl⟩
      · exact absurd hc (by simp)
    · exact absurd hc (by simp)
  · exact absurd hc (by simp)

theorem convert_raised_inv {raster : Raster} {fs fs' : FS} {src dst : Path}
    {w h : Nat} {out : List String}
    (hc : convert_svg_to_png raster fs src dst w h = ConvResult.raised fs' out) :
    fs' = fs ∧ out = [convLine src dst w h] := by
  unfold convert_svg_to_png at hc
  split at hc
  · split at hc
    · split at hc
      · exact absurd hc (by simp)
      · injection hc with h1 h2
        exact ⟨h1.symm, h2.symm⟩
    · injection hc with h1 h2
      exact ⟨h1.symm, h2.symm⟩
  · injection hc with h1 h2
    exact ⟨h1.symm, h2.symm⟩


theorem convert_ok_png_stable {raster : Raster} {fs fs' : FS} {src dst q : Path}
    {w h : Nat} {out : List String} {d0 : PngData}
    (hc : convert_svg_to_png raster fs src dst w h = ConvResult.ok fs' out)
    (hq : fs.readFile q = some (FileData.pngFile d0)) :
    ∃ d1, fs'.readFile q = some (FileData.pngFile d1) := by
  obtain ⟨c, d, _, _, hw, _⟩ := convert_ok_inv hc
  by_cases hqd : q = dst
  · subst hqd
    exact ⟨d, writeFile_read_self hw⟩
  · exact ⟨d0, (writeFile_read_ne hw hqd).symm ▸ hq⟩

theorem runBatch_ok_read {raster : Raster} {q : Path} :
    ∀ (specs : List ConvSpec) (fs g : FS) (o : List String),
      runBatch raster fs specs = ConvResult.ok g o →
      (∀ s ∈ specs, q ≠ s.dst) → g.readFile q = fs.readFile q := by
  intro specs
  induction specs with
  | nil =>
    intro fs g o hb _
    simp only [runBatch] at hb
    injection hb with h1 _
    rw [← h1]
  | cons s rest ih =>
    intro fs g o hb hq
    simp only [runBatch] at hb
    split at hb
    next fs1 out1 hc =>
      split at hb
      next fs2 out2 hb2 =>
        injection hb with h1 _
        obtain ⟨c, d, _, _, hw, _⟩ := convert_ok_inv hc
        have h2 : fs1.readFile q = fs.readFile q :=
          writeFile_read_ne hw (hq s (List.mem_cons_self s rest))
        have h3 : fs2.readFile q = fs1.readFile q :=
          ih fs1 fs2 out2 hb2 (fun t ht => hq t (List.mem_cons_of_mem s ht))
        rw [← h1, h3, h2]
      · exact absurd hb (by simp)
    · exact absurd hb (by simp)

theorem runBatch_ok_dirs {raster : Raster} :
    ∀ (specs : List ConvSpec) (fs g : FS) (o : List String),
      runBatch raster fs specs = ConvResult.ok g o → g.dirs = fs.dirs := by
  intro specs
  induction specs with
  | nil =>
    intro fs g o hb
    simp only [runBatch] at hb
    injection hb with h1 _
    rw [← h1]
  | cons s rest ih =>
    intro fs g o hb
    simp only [runBatch] at hb
    split at hb
    next fs1 out1 hc =>
      split at hb
      next fs2 out2 hb2 =>
        injection hb with h1 _
        obtain ⟨c, d, _, _, hw, _⟩ := convert_ok_inv hc
        rw [← h1, ih fs1 fs2 out2 hb2, writeFile_dirs hw]
      · exact absurd hb (by simp)
    · exact absurd hb (by simp)

theorem runBatch_png_stable {raster : Raster} {q : Path} :
    ∀ (specs : List ConvSpec) (fs g : FS) (o : List String) (d0 : PngData),
      runBatch raster fs specs = ConvResult.ok g o →
      fs.readFile q = some (FileData.pngFile d0) →
      ∃ d1, g.readFile q = some (FileData.pngFile d1) := by
  intro specs
  induction specs with
  | nil =>
    intro fs g o d0 hb hq
    simp only [runBatch] at hb
    injection hb with h1 _
    exact ⟨d0, h1 ▸ hq⟩
  | cons s rest ih =>
    intro fs g o d0 hb hq
    simp only [runBatch] at hb
    split at hb
    next fs1 out1 hc =>
      split at hb
      next fs2 out2 hb2 =>
        injection hb with h1 _
        obtain ⟨d1, hd1⟩ := convert_ok_png_stable hc hq
        exact h1 ▸ ih fs1 fs2 out2 d1 hb2 hd1
      · exact absurd hb (by simp)
    · exact absurd hb (by simp)

theorem runBatch_ok_writes {raster : Raster} :
    ∀ (specs : List ConvSpec) (fs g : FS) (o : List String),
      runBatch raster fs specs = ConvResult.ok g o →
      ∀ s ∈ specs, ∃ d, g.readFile s.dst = some (FileData.pngFile d) := by
  intro specs
  induction specs with
  | nil =>
    intro fs g o _ s hs
    exact absurd hs (List.not_mem_nil s)
  | cons s rest ih =>
    intro fs g o hb t ht
    simp only [runBatch] at hb
    split at hb
    next fs1 out1 hc =>
      split at hb
      next fs2 out2 hb2 =>
        injection hb with h1 _
        rcases List.mem_cons.mp ht with h | h
        · subst h
          obtain ⟨c, d, _, _, hw, _⟩ := convert_ok_inv hc
          exact h1 ▸ runBatch_png_stable rest fs1 fs2 out2 d hb2 (writeFile_read_self hw)
        · exact h1 ▸ ih fs1 fs2 out2 hb2 t h
      · exact absurd hb (by simp)
    · exact absurd hb (by simp)

theorem runBatch_raised_decomp {raster : Raster} :
    ∀ (specs : List ConvSpec) (fs g : FS) (o : List String),
      runBatch raster fs specs = ConvResult.raised g o →
      ∃ pre s post outPre, specs = pre ++ s :: post ∧
        runBatch raster fs pre = ConvResult.ok g outPre ∧
        o = outPre ++ [convLine s.src s.dst s.width s.height] := by
  intro specs
  induction specs with
  | nil =>
    intro fs g o hb
    exact absurd hb (by simp [runBatch])
  | cons s rest ih =>
    intro fs g o hb
    simp only [runBatch] at hb
    split at hb
    next fs1 out1 hc =>
      split at hb
      next fs2 out2 hb2 =>
        exact absurd hb (by simp)
      next fs2 out2 hb2 =>
        injection hb with h1 h2
        obtain ⟨pre, s', post, outPre, hsplit, hpre, hout⟩ := ih fs1 fs2 out2 hb2
        refine ⟨s :: pre, s', post, out1 ++ outPre, ?_, ?_, ?_⟩
        · rw [hsplit]
          rfl
        · have hr : runBatch raster fs (s :: pre) = ConvResult.ok fs2 (out1 ++ outPre) := by
            simp only [runBatch, hc, hpre]
          rwa [h1] at hr
        · rw [← h2, hout, List.append_assoc]
    next fs1 out1 hc =>
      injection hb with h1 h2
      obtain ⟨hfs, hout⟩ := convert_raised_inv hc
      have hg : g = fs := by rw [← h1, hfs]
      refine ⟨[], s, rest, [], rfl, ?_, ?_⟩
      · rw [hg]
        rfl
      · rw [← h2, hout]
        rfl

theorem runBatch_read_preserved {raster : Raster} {q : Path} {specs : List ConvSpec}
    {fs : FS} (hq : ∀ s ∈ specs, q ≠ s.dst) :
    (runBatch raster fs specs).state.readFile q = fs.readFile q := by
  cases hb : runBatch raster fs specs with
  | ok g o =>
    simpa [ConvResult.state] using runBatch_ok_read specs fs g o hb hq
  | raised g o =>
    obtain ⟨pre, s, post, outPre, hsplit, hpre, _⟩ := runBatch_raised_decomp specs fs g o hb
    have hqpre : ∀ t ∈ pre, q ≠ t.dst := fun t ht =>
      hq t (by rw [hsplit]; exact List.mem_append_left _ ht)
    simpa [ConvResult.state] using runBatch_ok_read pre fs g outPre hpre hqpre

theorem isDir_congr {fs fs' : FS} (h : fs'.dirs = fs.dirs) (p : Path) :
    fs'.isDir p = fs.isDir p := by
  unfold FS.isDir
  rw [h]

theorem parentOk_in_icons {fs : FS} {a : Path} {x : String}
    (h : fs.isDir (icons_dir a) = true) : parentOk fs (a ++ ["icons", x]) = true := by
  unfold parentOk
  rw [dropLast_append_pair]
  unfold icons_dir at h
  rw [h, Bool.or_true]

theorem parentOk_in_assets {fs : FS} {a : Path} {x : String}
    (h : fs.isDir a = true) : parentOk fs (a ++ [x]) = true := by
  unfold parentOk
  rw [dropLast_append_single, h, Bool.or_true]

theorem ne_append_singleton_self {α : Type} (l : List α) (x : α) : l ≠ l ++ [x] := by
  intro h
  have hlen := congrArg List.length h
  simp at hlen

theorem runBatch_dirs_preserved {raster : Raster} {specs : List ConvSpec} {fs : FS} :
    (runBatch raster fs specs).state.dirs = fs.dirs := by
  cases hb : runBatch raster fs specs with
  | ok g o =>
    simpa [ConvResult.state] using runBatch_ok_dirs specs fs g o hb
  | raised g o =>
    obtain ⟨pre, s, post, outPre, _, hpre, _⟩ := runBatch_raised_decomp specs fs g o hb
    simpa [ConvResult.state] using runBatch_ok_dirs pre fs g outPre hpre

/-! ### A fully successful run of `main` -/

theorem run_success {raster : Raster} {assets_dir : Path} {fs fs1 : FS}
    {ci cs : String} {d1 d2 d3 : PngData}
    (hmk : fs.mkdir (icons_dir assets_dir) true = some fs1)
    (hci : fs.readFile (icon_svg assets_dir) = some (FileData.svgFile ci))
    (hcs : fs.readFile (splash_svg assets_dir) = some (FileData.svgFile cs))
    (hr1 : raster ci 1024 1024 = some d1)
    (hr2 : raster ci 48 48 = some d2)
    (hr3 : raster cs 1284 2778 = some d3)
    (hA : fs.isDir assets_dir = true)
    (hnd1 : fs.isDir (icon_png assets_dir) = false)
    (hnd2 : fs.isDir (adaptive_png assets_dir) = false)
    (hnd3 : fs.isDir (favicon_png assets_dir) = false)
    (hnd4 : fs.isDir (splash_png assets_dir) = false) :
    ∃ fs2, main raster assets_dir fs = RunResult.exited fs2 (successOut assets_dir) 0 ∧
      fs2.readFile (icon_png assets_dir) = some (FileData.pngFile d1) ∧
      fs2.readFile (adaptive_png assets_dir) = some (FileData.pngFile d1) ∧
      fs2.readFile (favicon_png assets_dir) = some (FileData.pngFile d2) ∧
      fs2.readFile (splash_png assets_dir) = some (FileData.pngFile d3) ∧
      (∀ q : Path, q ≠ icon_png assets_dir → q ≠ adaptive_png assets_dir →
        q ≠ favicon_png assets_dir → q ≠ splash_png assets_dir →
        fs2.readFile q = fs1.readFile q) ∧
      fs2.dirs = fs1.dirs := by
  -- pairwise distinctness of the paths involved
  have neII : icon_svg assets_dir ≠ icon_png assets_dir :=
    show assets_dir ++ ["PLACEHOLDER_ICON.svg"] ≠ assets_dir ++ ["icons", "icon.png"] from
      append_ne_append (by decide)
  have neIA : icon_svg assets_dir ≠ adaptive_png assets_dir :=
    show assets_dir ++ ["PLACEHOLDER_ICON.svg"] ≠ assets_dir ++ ["icons", "adaptive-icon.png"] from
      append_ne_append (by decide)
  have neIF : icon_svg assets_dir ≠ favicon_png assets_dir :=
    show assets_dir ++ ["PLACEHOLDER_ICON.svg"] ≠ assets_dir ++ ["icons", "favicon.png"] from
      append_ne_append (by decide)
  have neSI : splash_svg assets_dir ≠ icon_png assets_dir :=
    show assets_dir ++ ["PLACEHOLDER_SPLASH.svg"] ≠ assets_dir ++ ["icons", "icon.png"] from
      append_ne_append (by decide)
  have neSA : splash_svg assets_dir ≠ adaptive_png assets_dir :=
    show assets_dir ++ ["PLACEHOLDER_SPLASH.svg"] ≠ assets_dir ++ ["icons", "adaptive-icon.png"] from
      append_ne_append (by decide)
  have neSF : splash_svg assets_dir ≠ favicon_png assets_dir :=
    show assets_dir ++ ["PLACEHOLDER_SPLASH.svg"] ≠ assets_dir ++ ["icons", "favicon.png"] from
      append_ne_append (by decide)
  have ne12 : icon_png assets_dir ≠ adaptive_png assets_dir :=
    show assets_dir ++ ["icons", "icon.png"] ≠ assets_dir ++ ["icons", "adaptive-icon.png"] from
      append_ne_append (by decide)
  have ne13 : icon_png assets_dir ≠ favicon_png assets_dir :=
    show assets_dir ++ ["icons", "icon.png"] ≠ assets_dir ++ ["icons", "favicon.png"] from
      append_ne_append (by decide)
  have ne14 : icon_png assets_dir ≠ splash_png assets_dir :=
    show assets_dir ++ ["icons", "icon.png"] ≠ assets_dir ++ ["splash.png"] from
      append_ne_append (by decide)
  have ne23 : adaptive_png assets_dir ≠ favicon_png assets_dir :=
    show assets_dir ++ ["icons", "adaptive-icon.png"] ≠ assets_dir ++ ["icons", "favicon.png"] from
      append_ne_append (by decide)
  have ne24 : adaptive_png assets_dir ≠ splash_png assets_dir :=
    show assets_dir ++ ["icons", "adaptive-icon.png"] ≠ assets_dir ++ ["splash.png"] from
      append_ne_append (by decide)
  have ne34 : favicon_png assets_dir ≠ splash_png assets_dir :=
    show assets_dir ++ ["icons", "favicon.png"] ≠ assets_dir ++ ["splash.png"] from
      append_ne_append (by decide)
  have ne1D : icon_png assets_dir ≠ icons_dir assets_dir :=
    show assets_dir ++ ["icons", "icon.png"] ≠ assets_dir ++ ["icons"] from
      append_ne_append (by decide)
  have ne2D : adaptive_png assets_dir ≠ icons_dir assets_dir :=
    show assets_dir ++ ["icons", "adaptive-icon.png"] ≠ assets_dir ++ ["icons"] from
      append_ne_append (by decide)
  have ne3D : favicon_png assets_dir ≠ icons_dir assets_dir :=
    show assets_dir ++ ["icons", "favicon.png"] ≠ assets_dir ++ ["icons"] from
      append_ne_append (by decide)
  have ne4D : splash_png assets_dir ≠ icons_dir assets_dir :=
    show assets_dir ++ ["splash.png"] ≠ assets_dir ++ ["icons"] from
      append_ne_append (by decide)
  have neAD : assets_dir ≠ icons_dir assets_dir :=
    ne_append_singleton_self assets_dir "icons"
  -- the state after `mkdir`
  have hdirIcons : fs1.isDir (icons_dir assets_dir) = true := mkdir_some_isDir_self hmk
  have hA1 : fs1.isDir assets_dir = true := by
    rw [mkdir_some_isDir_ne hmk neAD]
    exact hA
  have hci1 : fs1.readFile (icon_svg assets_dir) = some (FileData.svgFile ci) := by
    rw [mkdir_some_readFile hmk]
    exact hci
  have hcs1 : fs1.readFile (splash_svg assets_dir) = some (FileData.svgFile cs) := by
    rw [mkdir_some_readFile hmk]
    exact hcs
  have hnd1A : fs1.isDir (icon_png assets_dir) = false := by
    rw [mkdir_some_isDir_ne hmk ne1D]
    exact hnd1
  have hnd2A : fs1.isDir (adaptive_png assets_dir) = false := by
    rw [mkdir_some_isDir_ne hmk ne2D]
    exact hnd2
  have hnd3A : fs1.isDir (favicon_png assets_dir) = false := by
    rw [mkdir_some_isDir_ne hmk ne3D]
    exact hnd3
  have hnd4A : fs1.isDir (splash_png assets_dir) = false := by
    rw [mkdir_some_isDir_ne hmk ne4D]
    exact hnd4
  -- first conversion: icon.png
  obtain ⟨fsA, hw1⟩ : ∃ x, fs1.writeFile (icon_png assets_dir) (FileData.pngFile d1) = some x :=
    ⟨_, writeFile_some (FileData.pngFile d1) hnd1A (parentOk_in_icons hdirIcons)⟩
  have hcv1 := convert_ok_eq hci1 hr1 hw1
  have hdA : fsA.dirs = fs1.dirs := writeFile_dirs hw1
  -- second conversion: adaptive-icon.png
  have hciA : fsA.readFile (icon_svg assets_dir) = some (FileData.svgFile ci) := by
    rw [writeFile_read_ne hw1 neII]
    exact hci1
  have hnd2B : fsA.isDir (adaptive_png assets_dir) = false := by
    rw [isDir_congr hdA]
    exact hnd2A
  have hdirIconsA : fsA.isDir (icons_dir assets_dir) = true := by
    rw [isDir_congr hdA]
    exact hdirIcons
  obtain ⟨fsB, hw2⟩ : ∃ x, fsA.writeFile (adaptive_png assets_dir) (FileData.pngFile d1) = some x :=
    ⟨_, writeFile_some (FileData.pngFile d1) hnd2B (parentOk_in_icons hdirIconsA)⟩
  have hcv2 := convert_ok_eq hciA hr1 hw2
  have hdB : fsB.dirs = fsA.dirs := writeFile_dirs hw2
  -- third conversion: favicon.png
  have hciB : fsB.readFile (icon_svg assets_dir) = some (FileData.svgFile ci) := by
    rw [writeFile_read_ne hw2 neIA]
    exact hciA
  have hnd3C : fsB.isDir (favicon_png assets_dir) = false := by
    rw [isDir_congr hdB, isDir_congr hdA]
    exact hnd3A
  have hdirIconsB : fsB.isDir (icons_dir assets_dir) = true := by
    rw [isDir_congr hdB]
    exact hdirIconsA
  obtain ⟨fsC, hw3⟩ : ∃ x, fsB.writeFile (favicon_png assets_dir) (FileData.pngFile d2) = some x :=
    ⟨_, writeFile_some (FileData.pngFile d2) hnd3C (parentOk_in_icons hdirIconsB)⟩
  have hcv3 := convert_ok_eq hciB hr2 hw3
  have hdC : fsC.dirs = fsB.dirs := writeFile_dirs hw3
  -- fourth conversion: splash.png
  have hcsC : fsC.readFile (splash_svg assets_dir) = some (FileData.svgFile cs) := by
    rw [writeFile_read_ne hw3 neSF, writeFile_read_ne hw2 neSA, writeFile_read_ne hw1 neSI]
    exact hcs1
  have hnd4D : fsC.isDir (splash_png assets_dir) = false := by
    rw [isDir_congr hdC, isDir_congr hdB, isDir_congr hdA]
    exact hnd4A
  have hAC : fsC.isDir assets_dir = true := by
    rw [isDir_congr hdC, isDir_congr hdB, isDir_congr hdA]
    exact hA1
  obtain ⟨fsD, hw4⟩ : ∃ x, fsC.writeFile (splash_png assets_dir) (FileData.pngFile d3) = some x :=
    ⟨_, writeFile_some (FileData.pngFile d3) hnd4D (parentOk_in_assets hAC)⟩
  have hcv4 := convert_ok_eq hcsC hr3 hw4
  have hdD : fsD.dirs = fsC.dirs := writeFile_dirs hw4
  -- the batch
  have hbatch : runBatch raster fs1 (theSpecs assets_dir) =
      ConvResult.ok fsD (progressLines assets_dir) := by
    simp [theSpecs, runBatch, hcv1, hcv2, hcv3, hcv4, progressLines]
  -- the final state
  have hrd1 : fsD.readFile (icon_png assets_dir) = some (FileData.pngFile d1) := by
    rw [writeFile_read_ne hw4 ne14, writeFile_read_ne hw3 ne13, writeFile_read_ne hw2 ne12]
    exact writeFile_read_self hw1
  have hrd2 : fsD.readFile (adaptive_png assets_dir) = some (FileData.pngFile d1) := by
    rw [writeFile_read_ne hw4 ne24, writeFile_read_ne hw3 ne23]
    exact writeFile_read_self hw2
  have hrd3 : fsD.readFile (favicon_png assets_dir) = some (FileData.pngFile d2) := by
    rw [writeFile_read_ne hw4 ne34]
    exact writeFile_read_self hw3
  have hrd4 : fsD.readFile (splash_png assets_dir) = some (FileData.pngFile d3) :=
    writeFile_read_self hw4
  have hframe : ∀ q : Path, q ≠ icon_png assets_dir → q ≠ adaptive_png assets_dir →
      q ≠ favicon_png assets_dir → q ≠ splash_png assets_dir →
      fsD.readFile q = fs1.readFile q := by
    intro q hq1 hq2 hq3 hq4
    rw [writeFile_read_ne hw4 hq4, writeFile_read_ne hw3 hq3, writeFile_read_ne hw2 hq2,
      writeFile_read_ne hw1 hq1]
  have hdirs : fsD.dirs = fs1.dirs := by
    rw [hdD, hdC, hdB, hdA]
  -- the whole run
  have hex1 : fs1.pathExists (icon_svg assets_dir) = true := by
    simp [FS.pathExists, hci1]
  have hex2 : fs1.pathExists (splash_svg assets_dir) = true := by
    simp [FS.pathExists, hcs1]
  refine ⟨fsD, ?_, hrd1, hrd2, hrd3, hrd4, hframe, hdirs⟩
  simp [main, hmk, hex1, hex2, hbatch, successOut]

theorem mkdir_some_pathExists_ne {fs fs1 : FS} {p q : Path}
    (hmk : fs.mkdir p true = some fs1) (hq : q ≠ p) :
    fs1.pathExists q = fs.pathExists q := by
  unfold FS.pathExists
  rw [mkdir_some_readFile hmk, mkdir_some_isDir_ne hmk hq]

/-! ### The claims -/

/-- Claim C1: in every run in which both input files `PLACEHOLDER_ICON.svg` and
`PLACEHOLDER_SPLASH.svg` exist and all four conversions succeed, `main`
performs exactly four conversions in the fixed order (`icon.png` 1024x1024,
`adaptive-icon.png` 1024x1024, `favicon.png` 48x48, `splash.png` 1284x2778 —
visible as the eight progress lines of `successOut`), prints a summary
listing the four generated paths and dimensions, and returns exit status 0;
the four output files hold the corresponding raster data. -/
theorem main_success_four_conversions {raster : Raster} {assets_dir : Path} {fs fs1 : FS}
    {ci cs : String} {d1 d2 d3 : PngData}
    (hmk : fs.mkdir (icons_dir assets_dir) true = some fs1)
    (hci : fs.readFile (icon_svg assets_dir) = some (FileData.svgFile ci))
    (hcs : fs.readFile (splash_svg assets_dir) = some (FileData.svgFile cs))
    (hr1 : raster ci 1024 1024 = some d1)
    (hr2 : raster ci 48 48 = some d2)
    (hr3 : raster cs 1284 2778 = some d3)
    (hA : fs.isDir assets_dir = true)
    (hnd1 : fs.isDir (icon_png assets_dir) = false)
    (hnd2 : fs.isDir (adaptive_png assets_dir) = false)
    (hnd3 : fs.isDir (favicon_png assets_dir) = false)
    (hnd4 : fs.isDir (splash_png assets_dir) = false) :
    ∃ fs2, main raster assets_dir fs = RunResult.exited fs2 (successOut assets_dir) 0 ∧
      fs2.readFile (icon_png assets_dir) = some (FileData.pngFile d1) ∧
      fs2.readFile (adaptive_png assets_dir) = some (FileData.pngFile d1) ∧
      fs2.readFile (favicon_png assets_dir) = some (FileData.pngFile d2) ∧
      fs2.readFile (splash_png assets_dir) = some (FileData.pngFile d3) := by
  obtain ⟨fs2, hm, h1, h2, h3, h4, _, _⟩ :=
    run_success hmk hci hcs hr1 hr2 hr3 hA hnd1 hnd2 hnd3 hnd4
  exact ⟨fs2, hm, h1, h2, h3, h4⟩

/-- Witness for C1 at a concrete file system and rasterizer. -/
theorem main_success_four_conversions_witness :
    ∃ fs2, main wRaster ["assets"] wFS = RunResult.exited fs2 (successOut ["assets"]) 0 ∧
      fs2.readFile (icon_png ["assets"]) = some (FileData.pngFile ⟨"icon", 1024, 1024⟩) ∧
      fs2.readFile (adaptive_png ["assets"]) = some (FileData.pngFile ⟨"icon", 1024, 1024⟩) ∧
      fs2.readFile (favicon_png ["assets"]) = some (FileData.pngFile ⟨"icon", 48, 48⟩) ∧
      fs2.readFile (splash_png ["assets"]) = some (FileData.pngFile ⟨"splash", 1284, 2778⟩) :=
  main_success_four_conversions rfl rfl rfl rfl rfl rfl rfl rfl rfl rfl rfl

/-- Claim C2: in every run in which `PLACEHOLDER_ICON.svg` does not exist,
`main` prints an error identifying the missing path, returns exit status 1,
attempts no conversion (the error line is all it prints), and produces zero
output files (the file list is unchanged; only the `icons` directory may
have been created). -/
theorem main_missing_icon_exits_one {raster : Raster} {assets_dir : Path} {fs fs1 : FS}
    (hmk : fs.mkdir (icons_dir assets_dir) true = some fs1)
    (hni : fs.pathExists (icon_svg assets_dir) = false) :
    main raster assets_dir fs =
      RunResult.exited fs1 ["Error: " ++ pathStr (icon_svg assets_dir) ++ " not found!"] 1 ∧
      fs1.files = fs.files := by
  have neIicons : icon_svg assets_dir ≠ icons_dir assets_dir :=
    show assets_dir ++ ["PLACEHOLDER_ICON.svg"] ≠ assets_dir ++ ["icons"] from
      append_ne_append (by decide)
  have hni1 : fs1.pathExists (icon_svg assets_dir) = false := by
    rw [mkdir_some_pathExists_ne hmk neIicons]
    exact hni
  exact ⟨by simp [main, hmk, hni1], mkdir_some_files hmk⟩

/-- Witness for C2 at a concrete file system. -/
theorem main_missing_icon_exits_one_witness :
    main wRaster ["assets"] wFSnoIcon =
      RunResult.exited ⟨wFSnoIcon.files, ["assets", "icons"] :: wFSnoIcon.dirs⟩
        ["Error: " ++ pathStr (icon_svg ["assets"]) ++ " not found!"] 1 ∧
      (⟨wFSnoIcon.files, ["assets", "icons"] :: wFSnoIcon.dirs⟩ : FS).files = wFSnoIcon.files :=
  main_missing_icon_exits_one rfl rfl

/-- Claim C3: in every run in which `PLACEHOLDER_SPLASH.svg` does not exist —
regardless of whether `PLACEHOLDER_ICON.svg` exists — `main` returns exit
status 1 and attempts no further steps after the failed check: no
conversion runs and the file list is unchanged. -/
theorem main_missing_splash_exits_one {raster : Raster} {assets_dir : Path} {fs fs1 : FS}
    (hmk : fs.mkdir (icons_dir assets_dir) true = some fs1)
    (hns : fs.pathExists (splash_svg assets_dir) = false) :
    ∃ out, main raster assets_dir fs = RunResult.exited fs1 out 1 ∧
      fs1.files = fs.files := by
  have neSicons : splash_svg assets_dir ≠ icons_dir assets_dir :=
    show assets_dir ++ ["PLACEHOLDER_SPLASH.svg"] ≠ assets_dir ++ ["icons"] from
      append_ne_append (by decide)
  have hns1 : fs1.pathExists (splash_svg assets_dir) = false := by
    rw [mkdir_some_pathExists_ne hmk neSicons]
    exact hns
  cases hic : fs1.pathExists (icon_svg assets_dir) with
  | false =>
    exact ⟨["Error: " ++ pathStr (icon_svg assets_dir) ++ " not found!"],
      by simp [main, hmk, hic], mkdir_some_files hmk⟩
  | true =>
    exact ⟨["Error: " ++ pathStr (splash_svg assets_dir) ++ " not found!"],
      by simp [main, hmk, hic, hns1], mkdir_some_files hmk⟩

/-- Witness for C3 at a concrete file system. -/
theorem main_missing_splash_exits_one_witness :
    ∃ out, main wRaster ["assets"] wFSnoSplash =
      RunResult.exited ⟨wFSnoSplash.files, ["assets", "icons"] :: wFSnoSplash.dirs⟩ out 1 ∧
      (⟨wFSnoSplash.files, ["assets", "icons"] :: wFSnoSplash.dirs⟩ : FS).files =
        wFSnoSplash.files :=
  main_missing_splash_exits_one rfl rfl

/-- Claim C4 counterexample: the ensure-output-directory step does *not*
create missing parent directories — `mkdir(exist_ok=True)` is called
without `parents=True`, so on a file system where the parent of the icons
directory is absent the step raises (`FileNotFoundError`) instead of
creating the directory, and the whole run aborts. -/
theorem mkdir_no_parents_counterexample :
    FS.mkdir ⟨[], []⟩ (icons_dir ["assets"]) true = none ∧
    main wRaster ["assets"] ⟨[], []⟩ = RunResult.raised ⟨[], []⟩ [] :=
  ⟨rfl, rfl⟩

/-- Claim C4 amended: the ensure-output-directory step creates the icons
subdirectory when it is missing *provided its parent directory exists* (it
does not create missing parents); it is idempotent and does not fail
(raise) when the directory already exists, leaving the state unchanged. -/
theorem mkdir_exist_ok_spec {fs : FS} {p : Path}
    (hok : fs.isDir p = true ∨ (fs.readFile p = none ∧ parentOk fs p = true)) :
    ∃ fs', fs.mkdir p true = some fs' ∧ fs'.isDir p = true ∧ fs'.files = fs.files ∧
      (fs.isDir p = true → fs' = fs) := by
  rcases hok with h | ⟨hnf, hpar⟩
  · exact ⟨fs, mkdir_of_isDir h, h, rfl, fun _ => rfl⟩
  · cases hd : fs.isDir p with
    | true => exact ⟨fs, mkdir_of_isDir hd, hd, rfl, fun _ => rfl⟩
    | false =>
      refine ⟨⟨fs.files, p :: fs.dirs⟩, mkdir_create hd hnf hpar, ?_, rfl,
        fun hc => absurd hc (by simp)⟩
      simp [FS.isDir, memPath]

/-- Witness for the amended C4: creation when missing (parent present). -/
theorem mkdir_exist_ok_spec_witness :
    ∃ fs', FS.mkdir ⟨[], [["assets"]]⟩ (icons_dir ["assets"]) true = some fs' ∧
      fs'.isDir (icons_dir ["assets"]) = true ∧
      fs'.files = (⟨[], [["assets"]]⟩ : FS).files ∧
      ((⟨[], [["assets"]]⟩ : FS).isDir (icons_dir ["assets"]) = true →
        fs' = ⟨[], [["assets"]]⟩) :=
  mkdir_exist_ok_spec (Or.inr ⟨rfl, rfl⟩)

/-- Claim C5: `convert_svg_to_png src dst w h` rasterizes the SVG content of
`src` at exactly output width `w` and height `h`, writes the raster bytes
to exactly `dst` (overwriting any existing file there) and to no other
path, and — under the black-box assumption that the rasterizer honours the
requested dimensions — the produced raster data has width `w` and height
`h`. -/
theorem convert_svg_to_png_spec {raster : Raster} {fs : FS} {src dst : Path}
    {c : String} {d : PngData} {w h : Nat}
    (hhonest : RasterHonest raster)
    (hread : fs.readFile src = some (FileData.svgFile c))
    (hr : raster c w h = some d)
    (hnd : fs.isDir dst = false)
    (hpar : parentOk fs dst = true) :
    ∃ fs', convert_svg_to_png raster fs src dst w h =
        ConvResult.ok fs' [convLine src dst w h, createdLine dst] ∧
      fs'.readFile dst = some (FileData.pngFile d) ∧
      d.width = w ∧ d.height = h ∧
      (∀ q : Path, q ≠ dst → fs'.readFile q = fs.readFile q) ∧
      fs'.dirs = fs.dirs := by
  obtain ⟨fs', hw⟩ : ∃ x, fs.writeFile dst (FileData.pngFile d) = some x :=
    ⟨_, writeFile_some (FileData.pngFile d) hnd hpar⟩
  obtain ⟨hwid, hhei⟩ := hhonest c w h d hr
  exact ⟨fs', convert_ok_eq hread hr hw, writeFile_read_self hw, hwid, hhei,
    fun q hq => writeFile_read_ne hw hq, writeFile_dirs hw⟩

/-- Witness for C5: converting the icon over an existing file at the
destination (overwrite). -/
theorem convert_svg_to_png_spec_witness :
    ∃ fs', convert_svg_to_png wRaster wFSkeep (icon_svg ["assets"]) (favicon_png ["assets"]) 48 48 =
        ConvResult.ok fs'
          [convLine (icon_svg ["assets"]) (favicon_png ["assets"]) 48 48,
           createdLine (favicon_png ["assets"])] ∧
      fs'.readFile (favicon_png ["assets"]) = some (FileData.pngFile ⟨"icon", 48, 48⟩) ∧
      (⟨"icon", 48, 48⟩ : PngData).width = 48 ∧ (⟨"icon", 48, 48⟩ : PngData).height = 48 ∧
      (∀ q : Path, q ≠ favicon_png ["assets"] → fs'.readFile q = wFSkeep.readFile q) ∧
      fs'.dirs = wFSkeep.dirs :=
  convert_svg_to_png_spec
    (fun c w h d hd => by
      cases hd
      exact ⟨rfl, rfl⟩)
    rfl rfl rfl rfl

/-- Claim C6: when a conversion or file-write step raises, the failure is not
caught: `main` propagates it (result `raised`), the printed lines stop at
the failing conversion progress line (no later conversion in the batch is
attempted), and every output file written by an earlier step is still on
disk in the final state (no cleanup). -/
theorem main_conversion_failure_propagates {raster : Raster} {assets_dir : Path}
    {fs fs1 g : FS} {o : List String}
    (hmk : fs.mkdir (icons_dir assets_dir) true = some fs1)
    (hex1 : fs1.pathExists (icon_svg assets_dir) = true)
    (hex2 : fs1.pathExists (splash_svg assets_dir) = true)
    (hfail : runBatch raster fs1 (theSpecs assets_dir) = ConvResult.raised g o) :
    main raster assets_dir fs = RunResult.raised g o ∧
    ∃ pre s post outPre, theSpecs assets_dir = pre ++ s :: post ∧
      runBatch raster fs1 pre = ConvResult.ok g outPre ∧
      o = outPre ++ [convLine s.src s.dst s.width s.height] ∧
      ∀ t ∈ pre, ∃ d, g.readFile t.dst = some (FileData.pngFile d) := by
  constructor
  · simp [main, hmk, hex1, hex2, hfail]
  · obtain ⟨pre, s, post, outPre, hsplit, hpre, hout⟩ :=
      runBatch_raised_decomp (theSpecs assets_dir) fs1 g o hfail
    exact ⟨pre, s, post, outPre, hsplit, hpre, hout,
      runBatch_ok_writes pre fs1 g outPre hpre⟩

/-- Witness for C6: the third conversion (`favicon.png`) raises; the first
two outputs remain, nothing after the failing progress line is printed. -/
theorem main_conversion_failure_propagates_witness :
    main wRasterFail ["assets"] wFS = RunResult.raised wFailState wFailOut ∧
    ∃ pre s post outPre, theSpecs ["assets"] = pre ++ s :: post ∧
      runBatch wRasterFail ⟨wFS.files, ["assets", "icons"] :: wFS.dirs⟩ pre =
        ConvResult.ok wFailState outPre ∧
      wFailOut = outPre ++ [convLine s.src s.dst s.width s.height] ∧
      ∀ t ∈ pre, ∃ d, wFailState.readFile t.dst = some (FileData.pngFile d) :=
  main_conversion_failure_propagates rfl rfl rfl rfl

/-- Claim C7: a second run of the generator over the outputs of a first
successful run succeeds again with the same output lines and exit status 0,
overwriting the prior output files: the final state reads the same as the
state after the first run at every path. -/
theorem main_idempotent_rerun {raster : Raster} {assets_dir : Path} {fs fs1 : FS}
    {ci cs : String} {d1 d2 d3 : PngData}
    (hmk : fs.mkdir (icons_dir assets_dir) true = some fs1)
    (hci : fs.readFile (icon_svg assets_dir) = some (FileData.svgFile ci))
    (hcs : fs.readFile (splash_svg assets_dir) = some (FileData.svgFile cs))
    (hr1 : raster ci 1024 1024 = some d1)
    (hr2 : raster ci 48 48 = some d2)
    (hr3 : raster cs 1284 2778 = some d3)
    (hA : fs.isDir assets_dir = true)
    (hnd1 : fs.isDir (icon_png assets_dir) = false)
    (hnd2 : fs.isDir (adaptive_png assets_dir) = false)
    (hnd3 : fs.isDir (favicon_png assets_dir) = false)
    (hnd4 : fs.isDir (splash_png assets_dir) = false) :
    ∃ fs2 fs3, main raster assets_dir fs = RunResult.exited fs2 (successOut assets_dir) 0 ∧
      main raster assets_dir fs2 = RunResult.exited fs3 (successOut assets_dir) 0 ∧
      ∀ q : Path, fs3.readFile q = fs2.readFile q := by
  have neII : icon_svg assets_dir ≠ icon_png assets_dir :=
    show assets_dir ++ ["PLACEHOLDER_ICON.svg"] ≠ assets_dir ++ ["icons", "icon.png"] from
      append_ne_append (by decide)
  have neIA : icon_svg assets_dir ≠ adaptive_png assets_dir :=
    show assets_dir ++ ["PLACEHOLDER_ICON.svg"] ≠ assets_dir ++ ["icons", "adaptive-icon.png"] from
      append_ne_append (by decide)
  have neIF : icon_svg assets_dir ≠ favicon_png assets_dir :=
    show assets_dir ++ ["PLACEHOLDER_ICON.svg"] ≠ assets_dir ++ ["icons", "favicon.png"] from
      append_ne_append (by decide)
  have neIS : icon_svg assets_dir ≠ splash_png assets_dir :=
    show assets_dir ++ ["PLACEHOLDER_ICON.svg"] ≠ assets_dir ++ ["splash.png"] from
      append_ne_append (by decide)
  have neSI : splash_svg assets_dir ≠ icon_png assets_dir :=
    show assets_dir ++ ["PLACEHOLDER_SPLASH.svg"] ≠ assets_dir ++ ["icons", "icon.png"] from
      append_ne_append (by decide)
  have neSA : splash_svg assets_dir ≠ adaptive_png assets_dir :=
    show assets_dir ++ ["PLACEHOLDER_SPLASH.svg"] ≠ assets_dir ++ ["icons", "adaptive-icon.png"] from
      append_ne_append (by decide)
  have neSF : splash_svg assets_dir ≠ favicon_png assets_dir :=
    show assets_dir ++ ["PLACEHOLDER_SPLASH.svg"] ≠ assets_dir ++ ["icons", "favicon.png"] from
      append_ne_append (by decide)
  have neSS : splash_svg assets_dir ≠ splash_png assets_dir :=
    show assets_dir ++ ["PLACEHOLDER_SPLASH.svg"] ≠ assets_dir ++ ["splash.png"] from
      append_ne_append (by decide)
  have ne1D : icon_png assets_dir ≠ icons_dir assets_dir :=
    show assets_dir ++ ["icons", "icon.png"] ≠ assets_dir ++ ["icons"] from
      append_ne_append (by decide)
  have ne2D : adaptive_png assets_dir ≠ icons_dir assets_dir :=
    show assets_dir ++ ["icons", "adaptive-icon.png"] ≠ assets_dir ++ ["icons"] from
      append_ne_append (by decide)
  have ne3D : favicon_png assets_dir ≠ icons_dir assets_dir :=
    show assets_dir ++ ["icons", "favicon.png"] ≠ assets_dir ++ ["icons"] from
      append_ne_append (by decide)
  have ne4D : splash_png assets_dir ≠ icons_dir assets_dir :=
    show assets_dir ++ ["splash.png"] ≠ assets_dir ++ ["icons"] from
      append_ne_append (by decide)
  have neAD : assets_dir ≠ icons_dir assets_dir :=
    ne_append_singleton_self assets_dir "icons"
  obtain ⟨fs2, hm1, h1, h2, h3, h4, hframe, hdirs⟩ :=
    run_success hmk hci hcs hr1 hr2 hr3 hA hnd1 hnd2 hnd3 hnd4
  -- facts about the intermediate state `fs1`
  have hdirIcons : fs1.isDir (icons_dir assets_dir) = true := mkdir_some_isDir_self hmk
  have hA1 : fs1.isDir assets_dir = true := by
    rw [mkdir_some_isDir_ne hmk neAD]
    exact hA
  have hnd1A : fs1.isDir (icon_png assets_dir) = false := by
    rw [mkdir_some_isDir_ne hmk ne1D]
    exact hnd1
  have hnd2A : fs1.isDir (adaptive_png assets_dir) = false := by
    rw [mkdir_some_isDir_ne hmk ne2D]
    exact hnd2
  have hnd3A : fs1.isDir (favicon_png assets_dir) = false := by
    rw [mkdir_some_isDir_ne hmk ne3D]
    exact hnd3
  have hnd4A : fs1.isDir (splash_png assets_dir) = false := by
    rw [mkdir_some_isDir_ne hmk ne4D]
    exact hnd4
  -- the second run preconditions, now on `fs2`
  have hmk2 : fs2.mkdir (icons_dir assets_dir) true = some fs2 :=
    mkdir_of_isDir (by rw [isDir_congr hdirs]; exact hdirIcons)
  have hci2 : fs2.readFile (icon_svg assets_dir) = some (FileData.svgFile ci) := by
    rw [hframe (icon_svg assets_dir) neII neIA neIF neIS, mkdir_some_readFile hmk]
    exact hci
  have hcs2 : fs2.readFile (splash_svg assets_dir) = some (FileData.svgFile cs) := by
    rw [hframe (splash_svg assets_dir) neSI neSA neSF neSS, mkdir_some_readFile hmk]
    exact hcs
  have hA2 : fs2.isDir assets_dir = true := by
    rw [isDir_congr hdirs]
    exact hA1
  have hnd1B : fs2.isDir (icon_png assets_dir) = false := by
    rw [isDir_congr hdirs]
    exact hnd1A
  have hnd2B : fs2.isDir (adaptive_png assets_dir) = false := by
    rw [isDir_congr hdirs]
    exact hnd2A
  have hnd3B : fs2.isDir (favicon_png assets_dir) = false := by
    rw [isDir_congr hdirs]
    exact hnd3A
  have hnd4B : fs2.isDir (splash_png assets_dir) = false := by
    rw [isDir_congr hdirs]
    exact hnd4A
  obtain ⟨fs3, hm2, h1B, h2B, h3B, h4B, hframeB, _⟩ :=
    run_success hmk2 hci2 hcs2 hr1 hr2 hr3 hA2 hnd1B hnd2B hnd3B hnd4B
  refine ⟨fs2, fs3, hm1, hm2, ?_⟩
  intro q
  by_cases e1 : q = icon_png assets_dir
  · subst e1
    rw [h1B, h1]
  by_cases e2 : q = adaptive_png assets_dir
  · subst e2
    rw [h2B, h2]
  by_cases e3 : q = favicon_png assets_dir
  · subst e3
    rw [h3B, h3]
  by_cases e4 : q = splash_png assets_dir
  · subst e4
    rw [h4B, h4]
  exact hframeB q e1 e2 e3 e4

/-- Witness for C7 at a concrete file system and rasterizer. -/
theorem main_idempotent_rerun_witness :
    ∃ fs2 fs3, main wRaster ["assets"] wFS = RunResult.exited fs2 (successOut ["assets"]) 0 ∧
      main wRaster ["assets"] fs2 = RunResult.exited fs3 (successOut ["assets"]) 0 ∧
      ∀ q : Path, fs3.readFile q = fs2.readFile q :=
  main_idempotent_rerun rfl rfl rfl rfl rfl rfl rfl rfl rfl rfl rfl

/-- Claim C8: when the icons output directory already exists, the run does
not fail because of its existence (the `mkdir` step succeeds and leaves the
state unchanged), and whatever the outcome, every path other than the four
output paths — in particular every unrelated file already inside the icons
directory — reads the same after the run as before. -/
theorem main_preserves_unrelated_files {raster : Raster} {assets_dir : Path} {fs : FS}
    (hpre : fs.isDir (icons_dir assets_dir) = true) :
    fs.mkdir (icons_dir assets_dir) true = some fs ∧
    ∀ q : Path, q ≠ icon_png assets_dir → q ≠ adaptive_png assets_dir →
      q ≠ favicon_png assets_dir → q ≠ splash_png assets_dir →
      (main raster assets_dir fs).state.readFile q = fs.readFile q := by
  have hmk : fs.mkdir (icons_dir assets_dir) true = some fs := mkdir_of_isDir hpre
  refine ⟨hmk, ?_⟩
  intro q h1 h2 h3 h4
  have hq : ∀ s ∈ theSpecs assets_dir, q ≠ s.dst := by
    intro s hs
    simp only [theSpecs, List.mem_cons, List.not_mem_nil, or_false] at hs
    rcases hs with rfl | rfl | rfl | rfl
    · exact h1
    · exact h2
    · exact h3
    · exact h4
  cases e1 : fs.pathExists (icon_svg assets_dir) with
  | false =>
    have hmain : main raster assets_dir fs =
        RunResult.exited fs ["Error: " ++ pathStr (icon_svg assets_dir) ++ " not found!"] 1 := by
      simp [main, hmk, e1]
    simp only [hmain, RunResult.state]
  | true =>
    cases e2 : fs.pathExists (splash_svg assets_dir) with
    | false =>
      have hmain : main raster assets_dir fs =
          RunResult.exited fs
            ["Error: " ++ pathStr (splash_svg assets_dir) ++ " not found!"] 1 := by
        simp [main, hmk, e1, e2]
      simp only [hmain, RunResult.state]
    | true =>
      have hp := @runBatch_read_preserved raster q (theSpecs assets_dir) fs hq
      cases hb : runBatch raster fs (theSpecs assets_dir) with
      | ok f o =>
        rw [hb] at hp
        simp only [ConvResult.state] at hp
        have hmain : main raster assets_dir fs = RunResult.exited f (o ++ summaryLines) 0 := by
          simp [main, hmk, e1, e2, hb]
        simp only [hmain, RunResult.state]
        exact hp
      | raised f o =>
        rw [hb] at hp
        simp only [ConvResult.state] at hp
        have hmain : main raster assets_dir fs = RunResult.raised f o := by
          simp [main, hmk, e1, e2, hb]
        simp only [hmain, RunResult.state]
        exact hp

/-- Witness for C8: a pre-existing icons directory with an unrelated file
in it; the run succeeds and the unrelated file reads unchanged. -/
theorem main_preserves_unrelated_files_witness :
    FS.mkdir wFSkeep (icons_dir ["assets"]) true = some wFSkeep ∧
    (main wRaster ["assets"] wFSkeep).state.readFile ["assets", "icons", "notes.txt"] =
      some (FileData.svgFile "keep") := by
  constructor
  · exact (@main_preserves_unrelated_files wRaster ["assets"] wFSkeep rfl).1
  · rw [(@main_preserves_unrelated_files wRaster ["assets"] wFSkeep rfl).2
      ["assets", "icons", "notes.txt"] (by decide) (by decide) (by decide) (by decide)]
    rfl

/-- Claim C9: both input-existence checks run before any conversion, so in
every run where `PLACEHOLDER_SPLASH.svg` is missing — even with
`PLACEHOLDER_ICON.svg` present — `main` exits with status 1 having printed
only the splash error line and having produced zero output files (this
settles the check-ordering question: no icon conversion runs before the
splash check). -/
theorem main_splash_check_before_conversions {raster : Raster} {assets_dir : Path} {fs fs1 : FS}
    (hmk : fs.mkdir (icons_dir assets_dir) true = some fs1)
    (hic : fs.pathExists (icon_svg assets_dir) = true)
    (hns : fs.pathExists (splash_svg assets_dir) = false) :
    main raster assets_dir fs =
      RunResult.exited fs1 ["Error: " ++ pathStr (splash_svg assets_dir) ++ " not found!"] 1 ∧
      fs1.files = fs.files := by
  have neIicons : icon_svg assets_dir ≠ icons_dir assets_dir :=
    show assets_dir ++ ["PLACEHOLDER_ICON.svg"] ≠ assets_dir ++ ["icons"] from
      append_ne_append (by decide)
  have neSicons : splash_svg assets_dir ≠ icons_dir assets_dir :=
    show assets_dir ++ ["PLACEHOLDER_SPLASH.svg"] ≠ assets_dir ++ ["icons"] from
      append_ne_append (by decide)
  have hic1 : fs1.pathExists (icon_svg assets_dir) = true := by
    rw [mkdir_some_pathExists_ne hmk neIicons]
    exact hic
  have hns1 : fs1.pathExists (splash_svg assets_dir) = false := by
    rw [mkdir_some_pathExists_ne hmk neSicons]
    exact hns
  exact ⟨by simp [main, hmk, hic1, hns1], mkdir_some_files hmk⟩

/-- Witness for C9 at a concrete file system with the icon present and the
splash missing. -/
theorem main_splash_check_before_conversions_witness :
    main wRaster ["assets"] wFSnoSplash =
      RunResult.exited ⟨wFSnoSplash.files, ["assets", "icons"] :: wFSnoSplash.dirs⟩
        ["Error: " ++ pathStr (splash_svg ["assets"]) ++ " not found!"] 1 ∧
      (⟨wFSnoSplash.files, ["assets", "icons"] :: wFSnoSplash.dirs⟩ : FS).files =
        wFSnoSplash.files :=
  main_splash_check_before_conversions rfl rfl rfl

/-- Claim C10: the icons directory creation step runs before either
input-existence check, so a run that fails with exit status 1 because
`PLACEHOLDER_ICON.svg` is missing still mutates the file system: the icons
directory — absent beforehand — exists afterwards, though zero output files
were produced. -/
theorem main_creates_icons_dir_before_checks {raster : Raster} {assets_dir : Path} {fs : FS}
    (hA : fs.isDir assets_dir = true)
    (hnd : fs.isDir (icons_dir assets_dir) = false)
    (hnf : fs.readFile (icons_dir assets_dir) = none)
    (hni : fs.pathExists (icon_svg assets_dir) = false) :
    ∃ fs1 out, main raster assets_dir fs = RunResult.exited fs1 out 1 ∧
      fs1.isDir (icons_dir assets_dir) = true ∧ fs1.files = fs.files := by
  have hmk : fs.mkdir (icons_dir assets_dir) true =
      some ⟨fs.files, icons_dir assets_dir :: fs.dirs⟩ :=
    mkdir_create hnd hnf (parentOk_in_assets hA)
  have neIicons : icon_svg assets_dir ≠ icons_dir assets_dir :=
    show assets_dir ++ ["PLACEHOLDER_ICON.svg"] ≠ assets_dir ++ ["icons"] from
      append_ne_append (by decide)
  have hni1 : FS.pathExists ⟨fs.files, icons_dir assets_dir :: fs.dirs⟩
      (icon_svg assets_dir) = false := by
    rw [mkdir_some_pathExists_ne hmk neIicons]
    exact hni
  refine ⟨⟨fs.files, icons_dir assets_dir :: fs.dirs⟩,
    ["Error: " ++ pathStr (icon_svg assets_dir) ++ " not found!"], ?_,
    mkdir_some_isDir_self hmk, rfl⟩
  simp [main, hmk, hni1]

/-- Witness for C10: the missing-input run still creates the icons
directory. -/
theorem main_creates_icons_dir_before_checks_witness :
    ∃ fs1 out, main wRaster ["assets"] wFSnoIcon = RunResult.exited fs1 out 1 ∧
      fs1.isDir (icons_dir ["assets"]) = true ∧ fs1.files = wFSnoIcon.files :=
  main_creates_icons_dir_before_checks rfl rfl rfl rfl

end ConvertSvg
